import Mathlib

/-!
# Verification of the sh3redux archive/texture core

A shallow embedding of the archive and texture-decoding core of the
repository (master-index stream reader, per-section sub-archive locator,
resource framework, palette materialization and the paletted-texture
distortion decode loop), with theorems settling the frozen claims about it.

Machine integers are modelled as `Nat`/`Int` with explicit `% 2^32` where
32-bit wrap-around matters.  Byte buffers are `List Nat`; iterators into
them are positions (`Nat`, or `Int` where the source can move an iterator
before the start of its buffer).  External collaborators (the gzip stream,
the memory-mapped file contents, the archive locator used by
`resource::LoadFromFile`) enter as oracle parameters: the functions below
are translations of the repository's control flow over those oracles.
-/

namespace SH3

/-! ## Compressed stream reader (`mft`, src/unnamed/part_000)

`mft::ReadData` wraps one `gzread` call.  The embedding takes the oracle
result of `gzread` (`res : Int`, byte count on success, negative on
failure) plus the error environment that `gzerror`/`errno` would report,
and returns the `read_error` record the source builds together with the
returned byte count. -/

/-- `mft::read_result` (the classification enum). -/
inductive read_result where
  | SUCCESS
  | END_OF_FILE
  | PARTIAL_READ
  | GZ_ERROR
  deriving DecidableEq, Repr

/-- zlib's `Z_OK`. -/
def Z_OK : Int := 0

/-- zlib's `Z_ERRNO` (OS-level fault; `errno` holds the detail). -/
def Z_ERRNO : Int := -1

/-- `mft::read_error`: the structured error value. -/
structure read_error where
  result : read_result
  zlib_err : Int
  os_err : Int
  deriving DecidableEq, Repr

/-- `mft::read_error::set_error` (src/unnamed/part_000 lines 22-38):
resets `zlib_err`/`os_err`, and only for `GZ_ERROR` stores the code
reported by `gzerror` (`gzerrCode`) and, when that code is `Z_ERRNO`,
the OS error number (`errnoVal`). -/
def read_error.set_error (res : read_result) (gzerrCode errnoVal : Int) : read_error :=
  let z := if res = read_result.GZ_ERROR then gzerrCode else Z_OK
  { result := res
    zlib_err := z
    os_err := if res = read_result.GZ_ERROR ∧ z = Z_ERRNO then errnoVal else 0 }

/-- The classification cascade of `mft::ReadData`
(src/unnamed/part_000 lines 107-123): `res == ilen` → SUCCESS,
`res > 0` → PARTIAL_READ, `res == 0` → END_OF_FILE, else GZ_ERROR. -/
def ReadData_classify (len : Nat) (res : Int) : read_result :=
  if res = (len : Int) then read_result.SUCCESS
  else if res > 0 then read_result.PARTIAL_READ
  else if res = 0 then read_result.END_OF_FILE
  else read_result.GZ_ERROR

/-- `mft::ReadData` (src/unnamed/part_000 lines 99-128): classifies the
`gzread` result and returns it as a byte count, with a failed read
(`res < 0`) reset to `0` before returning. -/
def ReadData (len : Nat) (res : Int) (gzerrCode errnoVal : Int) : read_error × Nat :=
  (read_error.set_error (ReadData_classify len res) gzerrCode errnoVal,
   if res < 0 then 0 else res.toNat)

/-! ## Texture header (`sh3_texture_header`, src/unnamed/part_001) -/

/-- 2^32, the modulus of the source's `uint32_t` arithmetic. -/
def U32 : Nat := 4294967296

/-- `sh3_texture_header::GetRealBPP` (src/unnamed/part_001 line 204):
`texSize == static_cast<uint32_t>(texWidth * texHeight) * 4u ? 32 : bpp`.
The multiplication by `4u` is 32-bit unsigned, hence the `% U32`. -/
def GetRealBPP (texWidth texHeight bpp texSize : Nat) : Nat :=
  if texSize = texWidth * texHeight % U32 * 4 % U32 then 32 else bpp

/-- The pixel-format branch `sh3_texture::Load` selects. -/
inductive LoadBranch where
  | palette
  | rgba
  | bgr
  | rgba16
  | fatal
  deriving DecidableEq, Repr

/-- The branch cascade of `sh3_texture::Load`
(src/source/SH3/graphics/texture.cpp lines 124-262): dispatch on
`GetRealBPP` against `PALETTE = 8`, `RGBA = 32`, `BGR = 24`,
`RGBA16 = 16`, else `die`. -/
def LoadBranchOf (texWidth texHeight bpp texSize : Nat) : LoadBranch :=
  if GetRealBPP texWidth texHeight bpp texSize = 8 then LoadBranch.palette
  else if GetRealBPP texWidth texHeight bpp texSize = 32 then LoadBranch.rgba
  else if GetRealBPP texWidth texHeight bpp texSize = 24 then LoadBranch.bgr
  else if GetRealBPP texWidth texHeight bpp texSize = 16 then LoadBranch.rgba16
  else LoadBranch.fatal

/-! ## Resource framework (`resource`, src/unnamed/part_002)

The resource owns one byte buffer `raw : List Nat`.  `mft::LoadFile`
(the archive-locator delegate) is abstracted by the bytes it deposits
into `raw`; the header's `Check()` by a boolean oracle. -/

/-- `resource::IsLoaded` (src/unnamed/part_002 line 235):
`return raw.empty() && (AssertSize(sizeof(*this)), true);`. -/
def resource_IsLoaded (raw : List Nat) : Bool := raw.isEmpty

/-- The `ASSERT(!IsLoaded())` precondition check at the entry of
`resource::LoadFromFile` (src/unnamed/part_002 line 174), evaluated on
the buffer the resource holds before the call. -/
def resource_LoadFromFile_precondition (raw : List Nat) : Bool :=
  !resource_IsLoaded raw

/-- `resource::LoadFromFile` (src/unnamed/part_002 line 174) after the
precondition assert: `mft.LoadFile` fills the buffer with `fetched`;
then `if(IsLoaded() && !Header().Check()) { raw.clear(); }`.  The result
is the buffer the resource holds after the call. -/
def resource_LoadFromFile (fetched : List Nat) (checkOk : Bool) : List Nat :=
  if resource_IsLoaded fetched ∧ !checkOk then [] else fetched

/-! ## Master-index filename table (`mft::ReadNextSection`, src/unnamed/part_000)

`sh3_arc_section::fileList` is a `std::map<std::string, index>`; its
key-to-value behaviour is embedded as a function `String → Option Nat`.
`section.fileList[file.fname] = file.header.arcIndex` (line 191) is
`operator[]` followed by assignment: a plain function update. -/

/-- The empty `fileList` map. -/
def fileList_empty : String → Option Nat := fun _ => none

/-- One `fileList[fname] = arcIndex` step
(src/unnamed/part_000 line 191): `std::map::operator[]` plus assignment
stores `arcIndex` under `fname`, overwriting any earlier value. -/
def fileList_assign (m : String → Option Nat) (fname : String) (arcIndex : Nat) :
    String → Option Nat :=
  fun q => if q = fname then some arcIndex else m q

/-- The file-entry loop of `mft::ReadNextSection`
(src/unnamed/part_000 lines 173-193), restricted to its effect on
`fileList`: entries are inserted in file order. -/
def ReadNextSection_fileList (entries : List (String × Nat)) : String → Option Nat :=
  entries.foldl (fun m e => fileList_assign m e.1 e.2) fileList_empty

/-! ## Sub-archive locator (`subarc`, src/source/SH3/arc/subarc.cpp)

The memory-mapped section file enters as oracles: `entries i` is the
`subarc_file_entry` record that `reinterpret_cast` reads at
`sizeof(subarc_header) + i * sizeof(subarc_file_entry)`, and
`fileData p` the mapped byte at offset `p`.  The caller's buffer is a
`List Nat` plus an insertion position; the position is returned as an
`Int` because the source can move the iterator before `begin()`. -/

/-- `arcFileNotFound` (src/unnamed/part_003 line 26). -/
def arcFileNotFound : Int := -1

/-- `subarc_file_entry` (src/source/SH3/arc/subarc.cpp lines 36-42). -/
structure subarc_file_entry where
  offset : Nat
  fileID : Nat
  length : Nat
  length2 : Nat
  deriving DecidableEq, Repr

/-- `std::vector::resize(n)`: truncate to `n` elements, or grow to `n`
by appending value-initialized (zero) elements. -/
def vectorResize (l : List Nat) (n : Nat) : List Nat :=
  if n ≤ l.length then l.take n else l ++ List.replicate (n - l.length) 0

/-- `std::copy(first, last, d)`: overwrite the elements of `buffer` at
positions `start, start+1, …` with `data`.  The buffer's length never
changes; writes that fall outside `[0, buffer.length)` (undefined
behaviour in the source) are dropped. -/
def vectorCopyAt (buffer : List Nat) (start : Int) (data : List Nat) : List Nat :=
  buffer.mapIdx fun i b =>
    if start ≤ (i : Int) ∧ (i : Int) < start + data.length then
      data.getD ((i : Int) - start).toNat b
    else b

/-- `subarc::Reopen` (src/source/SH3/arc/subarc.cpp lines 47-65),
reduced to whether the mapped file is open afterwards: the open must
succeed and the header magic must equal `0x20030507`, otherwise the
file is closed (or never opened). -/
def subarc_Reopen (openOk : Bool) (magic : Nat) : Bool :=
  openOk && (magic == 0x20030507)

/-- `subarc::LoadFile(index_t, buffer, insert)`
(src/source/SH3/arc/subarc.cpp lines 88-120).  Returns
`(return value, buffer after, insert after)`:
`if(!file) return arcFileNotFound;` — then `space = distance(insert,
end(buffer))`; `if(space < length) { buffer.resize(length - space);
insert = prev(end(buffer), length); }` — then
`std::copy(dataBegin, dataEnd, insert); advance(insert, offset);
return length;` (the source advances by `fileEntry.offset`). -/
def subarc_LoadFile_index (fileOpen : Bool) (entry : subarc_file_entry)
    (fileData : Nat → Nat) (buffer : List Nat) (insert : Nat) :
    Int × List Nat × Int :=
  if fileOpen = false then (arcFileNotFound, buffer, (insert : Int))
  else
    let space : Nat := buffer.length - insert
    let resized :=
      if space < entry.length then
        let b := vectorResize buffer (entry.length - space)
        (b, (b.length : Int) - (entry.length : Int))
      else (buffer, (insert : Int))
    let copied := vectorCopyAt resized.1 resized.2
      ((List.range entry.length).map fun i => fileData (entry.offset + i))
    ((entry.length : Int), copied, resized.2 + (entry.offset : Int))

/-- `subarc::LoadFile(const std::string&, buffer, insert)`
(src/source/SH3/arc/subarc.cpp lines 67-86): look the name up in the
`files` map (`equal_range`); an empty range returns `arcFileNotFound`,
otherwise the first match's index is loaded. -/
def subarc_LoadFile_name (fileOpen : Bool) (files : String → Option Nat)
    (entries : Nat → subarc_file_entry) (fileData : Nat → Nat)
    (filename : String) (buffer : List Nat) (insert : Nat) :
    Int × List Nat × Int :=
  match files filename with
  | none => (arcFileNotFound, buffer, (insert : Int))
  | some i => subarc_LoadFile_index fileOpen (entries i) fileData buffer insert

/-! ## Palette materialization swap (`palette_info_resource::Data`,
src/unnamed/part_001 lines 93-135)

Colors are modelled as `Nat` values; the materialized palette (the
concatenation of the per-block color records) is the input list, and the
embedding covers the swap step that follows it. -/

/-- `std::swap_ranges(iter, iter+n, swapBlock)` on a list: exchange the
element ranges `[a, a+n)` and `[b, b+n)` (the source uses `b = a + 8`,
`n = 8`, so the ranges are disjoint). -/
def swapRanges (l : List Nat) (a b n : Nat) : List Nat :=
  (List.range l.length).map fun i =>
    if a ≤ i ∧ i < a + n then l.getD (b + (i - a)) 0
    else if b ≤ i ∧ i < b + n then l.getD (a + (i - b)) 0
    else l.getD i 0

/-- The swap `for`-loop of `palette_info_resource::Data`
(src/unnamed/part_001 lines 120-130), with `p` the position of `iter`:
it runs while `distance(iter, end(palette)) > 32` (`swapDistance`);
the body stops with only a log when fewer than 8 (`swapSize`) entries
remain past `swapBlock = iter + 8`, and otherwise swaps
`[p, p+8)` with `[p+8, p+16)` and advances by 32. -/
def paletteSwapLoop (l : List Nat) (p : Nat) : List Nat :=
  if 32 < l.length - p then
    if l.length - (p + 8) < 8 then l
    else paletteSwapLoop (swapRanges l p (p + 8) 8) (p + 32)
  else l
termination_by l.length - p
decreasing_by
  simp only [swapRanges, List.length_map, List.length_range]
  omega

/-- The swap step of `palette_info_resource::Data`
(src/unnamed/part_001 lines 115-131): guarded by
`if(palette.size() > 8)`, then the loop starting at palette index 8. -/
def paletteSwap (palette : List Nat) : List Nat :=
  if 8 < palette.length then paletteSwapLoop palette 8 else palette

/-! ## Distortion decode loop (`sh3_texture::Load`,
src/source/SH3/graphics/texture.cpp lines 153-216)

The raw index stream (`header_rc.RawData()`, `texSize` bytes) enters as
an oracle `ρ : Nat → Nat` giving the byte at each stream position.  The
loop state tracks the tile cursor `x`, the row cursor `y`, the
alternating `offsetFlipper`, the next stream position `pos` (the
distance `it` has advanced), and the sequence of `iBuffer[idx] = index`
writes performed so far. -/

/-- The `xoffset` computation for position `i` of a 32-byte group
(src/source/SH3/graphics/texture.cpp lines 167-176):
`((i << 2) & 0xf) + ((i >> 2) & 0xf)`, then for odd `i > 16` XOR with 8
and mask to 4 bits, then XOR with 4 when `offsetFlipper` is set. -/
def xoffsetOf (i : Nat) (offsetFlipper : Bool) : Nat :=
  let xo := ((i <<< 2) &&& 0xf) + ((i >>> 2) &&& 0xf)
  let xo := if 16 < i ∧ i % 2 = 1 then (xo ^^^ 8) &&& 0xf else xo
  if offsetFlipper then xo ^^^ 4 else xo

/-- The destination index
`idx = (texWidth * tempy) + tempx % texWidth`
(src/source/SH3/graphics/texture.cpp lines 178-181), where
`tempx = x + xoffset` and `tempy = y + (i odd ? 2 : 0)`. -/
def writeIdx (w x y : Nat) (offsetFlipper : Bool) (i : Nat) : Nat :=
  w * (y + if i % 2 = 1 then 2 else 0) + (x + xoffsetOf i offsetFlipper) % w

/-- The loop state of the distortion decode. -/
structure DistortState where
  x : Nat
  y : Nat
  offsetFlipper : Bool
  pos : Nat
  writes : List (Nat × Nat)
  deriving DecidableEq

/-- The 32 `iBuffer[idx] = index` writes of one inner `for` pass
(src/source/SH3/graphics/texture.cpp lines 163-184), reading stream
positions `pos, …, pos+31`. -/
def groupWrites (w x y : Nat) (offsetFlipper : Bool) (ρ : Nat → Nat) (pos : Nat) :
    List (Nat × Nat) :=
  (List.range 32).map fun i => (writeIdx w x y offsetFlipper i, ρ (pos + i))

/-- One iteration of the `while(true)` distortion loop
(src/source/SH3/graphics/texture.cpp lines 161-215): the inner 32-byte
`for` pass, then `x += 16; if(x < w) continue; x = 0; ++y;
if(y % 2 == 0) { y += 2; if(y >= h) break; offsetFlipper ^= …; }
if(y == h) break;`.  `Sum.inl` continues, `Sum.inr` breaks. -/
def distortStep (w h : Nat) (ρ : Nat → Nat) (s : DistortState) :
    DistortState ⊕ DistortState :=
  let wr := s.writes ++ groupWrites w s.x s.y s.offsetFlipper ρ s.pos
  if s.x + 16 < w then
    Sum.inl ⟨s.x + 16, s.y, s.offsetFlipper, s.pos + 32, wr⟩
  else if (s.y + 1) % 2 = 0 then
    if s.y + 3 ≥ h then Sum.inr ⟨0, s.y + 3, s.offsetFlipper, s.pos + 32, wr⟩
    else if s.y + 3 = h then Sum.inr ⟨0, s.y + 3, !s.offsetFlipper, s.pos + 32, wr⟩
    else Sum.inl ⟨0, s.y + 3, !s.offsetFlipper, s.pos + 32, wr⟩
  else if s.y + 1 = h then Sum.inr ⟨0, s.y + 1, s.offsetFlipper, s.pos + 32, wr⟩
  else Sum.inl ⟨0, s.y + 1, s.offsetFlipper, s.pos + 32, wr⟩

/-- The `while(true)` loop iterated with a fuel bound: `none` means the
fuel ran out before the loop hit a `break`. -/
def distortLoop (w h : Nat) (ρ : Nat → Nat) : Nat → DistortState → Option DistortState
  | 0, _ => none
  | fuel + 1, s =>
    match distortStep w h ρ s with
    | Sum.inl s' => distortLoop w h ρ fuel s'
    | Sum.inr s' => some s'

/-- The loop's initial state (`x = 0, y = 0, offsetFlipper = false`,
the stream iterator at `begin`, no writes yet). -/
def distortInit : DistortState := ⟨0, 0, false, 0, []⟩

/-! ## In-code bounds assertions of the paletted branch -/

/-- `ASSERT(idx <= iBuffer.size())`
(src/source/SH3/graphics/texture.cpp line 182). -/
def assertLine182 (idx iBufferSize : Nat) : Bool := idx ≤ iBufferSize

/-- `ASSERT(index <= palette.size())` — distorted branch
(src/source/SH3/graphics/texture.cpp line 221). -/
def assertLine221 (index paletteSize : Nat) : Bool := index ≤ paletteSize

/-- `ASSERT(palette.size() <= index)` — non-distorted branch
(src/source/SH3/graphics/texture.cpp line 234). -/
def assertLine234 (paletteSize index : Nat) : Bool := paletteSize ≤ index

/-! ## Theorems -/

/-- C1 (counterexample): with two entries named `"a"` — the first
carrying sub-arc index 1 (whose file entry has length 3), the second
index 2 (length 7) — the filename table maps `"a"` to index 2, and
`subarc::LoadFile("a", …)` loads entry 2, returning length 7; the claim
says lookup resolves to the first-inserted entry (index 1, length 3). -/
theorem C1_counterexample :
    (ReadNextSection_fileList [("a", 1), ("a", 2)]) "a" = some 2 ∧ some (2 : Nat) ≠ some 1 ∧
    (subarc_LoadFile_name true (ReadNextSection_fileList [("a", 1), ("a", 2)])
      (fun i => if i = 1 then ⟨0, 0, 3, 3⟩ else ⟨0, 0, 7, 7⟩)
      (fun _ => 5) "a" [] 0).1 = 7 ∧ (7 : Int) ≠ 3 := by
  decide

/-- C2: on a successful by-index load (file open, entry in bounds,
buffer roomy) of an entry with `offset = 32`, `length = 4`, starting
from an 8-byte zero buffer with the insertion point at 0, the source
copies the 4 entry bytes at position 0 and returns 4, but leaves the
insertion iterator at `0 + 32` — advanced by `fileEntry.offset` — where
its own documentation ("insert is updated to point to the end of the
inserted data") requires `0 + 4`. -/
theorem C2_advance_by_offset :
    subarc_LoadFile_index true ⟨32, 0, 4, 4⟩ (fun _ => 9) (List.replicate 8 0) 0 =
      (4, [9, 9, 9, 9, 0, 0, 0, 0], 0 + 32) ∧ (0 + 32 : Int) ≠ 0 + 4 := by
  decide

/-- C3: loading an entry of length 2 into a 10-byte buffer with the
insertion point at 9 (remaining capacity 1, shortfall 1): the source
executes `buffer.resize(length - space)` = `resize(1)` and truncates
the buffer to 1 byte (then computes `prev(end(buffer), 2)`, before the
buffer's begin), whereas the claim requires the new size
`10 + (2 - 1) = 11`. -/
theorem C3_resize_truncates :
    ((subarc_LoadFile_index true ⟨0, 0, 2, 2⟩ (fun _ => 9) (List.replicate 10 7) 9).2.1).length = 1 ∧
    (1 : Nat) ≠ 10 + (2 - 1) := by
  decide

/-- C4 (counterexample): a materialized palette of exactly 40 colors is
returned unchanged — the swap loop's condition
`distance(iter, end(palette)) > swapDistance` is `32 > 32` at `iter =
begin + 8` — whereas the claim says entries `[8,16)` are exchanged with
`[16,24)` exactly once (which would differ from the input). -/
theorem C4_counterexample :
    paletteSwap (List.range 40) = List.range 40 ∧
    swapRanges (List.range 40) 8 16 8 ≠ List.range 40 := by
  refine ⟨?_, by decide⟩
  rw [paletteSwap, paletteSwapLoop]
  simp

/-- C5: `resource::IsLoaded` returns `raw.empty()`: it reports an empty
(unloaded) buffer as loaded and a non-empty one as unloaded, so the
`ASSERT(!IsLoaded())` precondition of `LoadFromFile` fails on a fresh
empty resource although its own documentation says the call is for
not-yet-loaded resources, and after fetching bytes that fail the header
`Check()` the buffer is kept instead of cleared (the clearing branch
requires `IsLoaded()`, false on the just-filled buffer). -/
theorem C5_isloaded_inverted :
    resource_IsLoaded [] = true ∧
    resource_IsLoaded [1, 2, 3] = false ∧
    resource_LoadFromFile_precondition [] = false ∧
    resource_LoadFromFile [1, 2, 3] false = [1, 2, 3] ∧ [1, 2, 3] ≠ ([] : List Nat) := by
  decide

/-- C7 (counterexample): the header with `texWidth = texHeight = 32768`,
`bpp = 8`, `texSize = 0` has `texSize ≠ texWidth·texHeight·4`
(`0 ≠ 2^32`), so the claim says `GetRealBPP` returns the declared
`bpp = 8`; the source compares in 32-bit arithmetic
(`2^32 mod 2^32 = 0`) and returns 32. -/
theorem C7_counterexample :
    GetRealBPP 32768 32768 8 0 = 32 ∧
    (0 : Nat) ≠ 32768 * 32768 * 4 ∧
    GetRealBPP 32768 32768 8 0 ≠ 8 := by
  decide

/-- C10: in the non-distorted paletted branch the in-code assertion
(texture.cpp line 234) is `ASSERT(palette.size() <= index)` — for the
materialized 256-color palette and the in-bounds index byte 0 it
evaluates `256 ≤ 0`, i.e. false, although the index is strictly
in-bounds (`0 < 256`) exactly as the distorted branch's assertion
(line 221) accepts it. -/
theorem C10_assert_reversed :
    assertLine234 256 0 = false ∧
    (0 : Nat) < 256 ∧
    assertLine221 0 256 = true := by
  decide

/-- Helper: the filename-table fold resolves a name to the value of the
last entry carrying it, falling back to the initial map. -/
theorem fileList_foldl_last (entries : List (String × Nat)) (m : String → Option Nat)
    (name : String) :
    (entries.foldl (fun acc e => fileList_assign acc e.1 e.2) m) name =
      (((entries.reverse.find? fun e => e.1 == name).map fun e => e.2).or (m name)) := by
  induction entries generalizing m with
  | nil => simp
  | cons e es ih =>
    simp only [List.foldl_cons, List.reverse_cons, List.find?_append, ih]
    cases h : es.reverse.find? (fun x => x.1 == name) with
    | some v => simp
    | none =>
      by_cases hq : e.1 = name
      · have hbeq : (e.1 == name) = true := by simp [hq]
        have hqs : name = e.1 := hq.symm
        simp [List.find?, hbeq, fileList_assign, hqs]
      · have hbeq : (e.1 == name) = false := by simp [hq]
        have hne : ¬name = e.1 := fun hh => hq hh.symm
        simp [List.find?, hbeq, fileList_assign, hne]

/-- C1 (amended): for every section, the filename table built by
`mft::ReadNextSection` maps each filename to the local index of the
**last**-inserted entry with that name (`std::map::operator[]` plus
assignment overwrites earlier values); duplicate names never fail. -/
theorem C1_amended_last_wins (entries : List (String × Nat)) (name : String) :
    ReadNextSection_fileList entries name =
      ((entries.reverse.find? fun e => e.1 == name).map fun e => e.2) := by
  rw [ReadNextSection_fileList, fileList_foldl_last]
  cases entries.reverse.find? fun e => e.1 == name <;> simp [fileList_empty]

/-- Helper: `swapRanges` preserves the palette's length. -/
theorem swapRanges_length (l : List Nat) (a b n : Nat) :
    (swapRanges l a b n).length = l.length := by
  simp [swapRanges]

/-- C4 (amended): the swap step leaves a palette of exactly 8 colors
unchanged, leaves a palette of exactly 40 colors unchanged as well (a
swap is performed only while strictly more than 32 entries remain past
the run start, so the first swap needs at least 41 colors), and swaps
exactly `[8,16)` with `[16,24)` for a palette of 41 colors; when at most
32 entries remain the loop stops silently — the insufficient-trailing
log is unreachable. -/
theorem C4_amended (l : List Nat) :
    (l.length = 8 → paletteSwap l = l) ∧
    (l.length = 40 → paletteSwap l = l) ∧
    (l.length = 41 → paletteSwap l = swapRanges l 8 16 8) := by
  refine ⟨fun h => ?_, fun h => ?_, fun h => ?_⟩
  · rw [paletteSwap]
    simp [h]
  · rw [paletteSwap, paletteSwapLoop]
    simp [h]
  · have hlen : (swapRanges l 8 16 8).length = l.length := swapRanges_length l 8 16 8
    rw [paletteSwap, paletteSwapLoop, paletteSwapLoop]
    simp [h, hlen]

/-- C4 (witness): a 41-color palette takes exactly the one swap. -/
theorem C4_witness :
    (List.range 41).length = 41 ∧
    paletteSwap (List.range 41) = swapRanges (List.range 41) 8 16 8 :=
  ⟨by decide, (C4_amended (List.range 41)).2.2 (by decide)⟩

/-- C6: for a read of `len > 0` bytes whose underlying `gzread` returns
`res ≤ len` (the source's overflow assert), `mft::ReadData` classifies
the outcome as SUCCESS iff exactly `len` bytes were read, PARTIAL_READ
iff between 1 and `len-1`, END_OF_FILE iff 0 bytes, and GZ_ERROR iff
the read failed (`res < 0`), in which case the stored error carries the
decompressor's code and, when that code is `Z_ERRNO`, the OS error
number; the returned byte count always matches the classification (in
particular a truncated stream never yields a false SUCCESS). -/
theorem C6_read_classification (len : Nat) (res gzerrCode errnoVal : Int)
    (hlen : 0 < len) (hres : res ≤ (len : Int)) :
    ((ReadData len res gzerrCode errnoVal).1.result = read_result.SUCCESS ↔ res = (len : Int)) ∧
    ((ReadData len res gzerrCode errnoVal).1.result = read_result.PARTIAL_READ ↔
      1 ≤ res ∧ res ≤ (len : Int) - 1) ∧
    ((ReadData len res gzerrCode errnoVal).1.result = read_result.END_OF_FILE ↔ res = 0) ∧
    ((ReadData len res gzerrCode errnoVal).1.result = read_result.GZ_ERROR ↔ res < 0) ∧
    ((ReadData len res gzerrCode errnoVal).1.result = read_result.GZ_ERROR →
      (ReadData len res gzerrCode errnoVal).1.zlib_err = gzerrCode ∧
      (gzerrCode = Z_ERRNO → (ReadData len res gzerrCode errnoVal).1.os_err = errnoVal)) ∧
    (((ReadData len res gzerrCode errnoVal).2 : Int) = max res 0) ∧
    ((ReadData len res gzerrCode errnoVal).1.result = read_result.SUCCESS →
      (ReadData len res gzerrCode errnoVal).2 = len) ∧
    ((ReadData len res gzerrCode errnoVal).1.result = read_result.PARTIAL_READ →
      1 ≤ (ReadData len res gzerrCode errnoVal).2 ∧ (ReadData len res gzerrCode errnoVal).2 < len) ∧
    ((ReadData len res gzerrCode errnoVal).1.result = read_result.END_OF_FILE ∨
        (ReadData len res gzerrCode errnoVal).1.result = read_result.GZ_ERROR →
      (ReadData len res gzerrCode errnoVal).2 = 0) := by
  simp only [ReadData, ReadData_classify, read_error.set_error]
  split_ifs <;> simp_all <;> omega

/-- C6 (witness): a 4-byte request answered with 2 bytes is a partial
read returning 2. -/
theorem C6_witness :
    (0 < 4) ∧ ((2 : Int) ≤ ((4 : Nat) : Int)) ∧
    (ReadData 4 2 0 0).1.result = read_result.PARTIAL_READ ∧
    (ReadData 4 2 0 0).2 = 2 :=
  ⟨by decide, by decide,
    ((C6_read_classification 4 2 0 0 (by decide) (by decide)).2.1).mpr (by decide),
    by decide⟩

/-- C7 (amended): `GetRealBPP` returns 32 whenever the declared size
equals `texWidth·texHeight·4` computed in 32-bit unsigned arithmetic
(mod `2^32`), regardless of the declared bpp — so such a texture, even
with declared `bpp = 8`, dispatches to the 32-bit RGBA branch of
`sh3_texture::Load`, not the palette branch — and returns the declared
bpp otherwise. -/
theorem C7_realbpp_override (texWidth texHeight bpp texSize : Nat) :
    (texSize = texWidth * texHeight % U32 * 4 % U32 →
      GetRealBPP texWidth texHeight bpp texSize = 32 ∧
      LoadBranchOf texWidth texHeight bpp texSize = LoadBranch.rgba) ∧
    (texSize ≠ texWidth * texHeight % U32 * 4 % U32 →
      GetRealBPP texWidth texHeight bpp texSize = bpp) := by
  constructor
  · intro h
    have h32 : GetRealBPP texWidth texHeight bpp texSize = 32 := by
      rw [GetRealBPP, if_pos h]
    refine ⟨h32, ?_⟩
    rw [LoadBranchOf]
    simp [h32]
  · intro h
    rw [GetRealBPP, if_neg h]

/-- C7 (witness): a 10×10 texture declaring `bpp = 8` and
`texSize = 400 = 10·10·4` is forced to real bpp 32 and decoded through
the RGBA branch. -/
theorem C7_witness :
    (400 : Nat) = 10 * 10 % U32 * 4 % U32 ∧
    GetRealBPP 10 10 8 400 = 32 ∧ LoadBranchOf 10 10 8 400 = LoadBranch.rgba :=
  ⟨by decide, (C7_realbpp_override 10 10 8 400).1 (by decide)⟩

/-- C9: when the backing file fails to open or its magic is not
`0x20030507`, `Reopen` leaves the mapped file closed, and every later
`LoadFile` — by index or by name, for every buffer and insertion
point — returns the `arcFileNotFound` sentinel with the buffer and the
insertion iterator unchanged. -/
theorem C9_unusable_is_safe (openOk : Bool) (magic : Nat)
    (h : openOk = false ∨ magic ≠ 0x20030507)
    (files : String → Option Nat) (entries : Nat → subarc_file_entry)
    (fileData : Nat → Nat) (filename : String) (index : Nat)
    (buffer : List Nat) (insert : Nat) :
    subarc_Reopen openOk magic = false ∧
    subarc_LoadFile_index (subarc_Reopen openOk magic) (entries index) fileData buffer insert =
      (arcFileNotFound, buffer, (insert : Int)) ∧
    subarc_LoadFile_name (subarc_Reopen openOk magic) files entries fileData filename buffer insert =
      (arcFileNotFound, buffer, (insert : Int)) := by
  have hro : subarc_Reopen openOk magic = false := by
    rcases h with h | h <;> simp [subarc_Reopen, h]
  refine ⟨hro, ?_, ?_⟩
  · rw [hro]
    simp [subarc_LoadFile_index]
  · rw [hro, subarc_LoadFile_name]
    cases files filename with
    | none => rfl
    | some i => simp [subarc_LoadFile_index]

/-- Helper: every destination index computed by the distortion loop is
strictly below `w * h` as long as the row cursor stays at least 3 rows
from the clamped height. -/
theorem writeIdx_lt (w h x y : Nat) (f : Bool) (i : Nat)
    (hw0 : 0 < w) (hy : y + 3 ≤ h) :
    writeIdx w x y f i < w * h := by
  unfold writeIdx
  have hmod : (x + xoffsetOf i f) % w < w := Nat.mod_lt _ hw0
  have htempy : (y + if i % 2 = 1 then 2 else 0) + 1 ≤ h := by split <;> omega
  calc w * (y + if i % 2 = 1 then 2 else 0) + (x + xoffsetOf i f) % w
      < w * ((y + if i % 2 = 1 then 2 else 0) + 1) := by
        rw [Nat.mul_succ]
        omega
    _ ≤ w * h := Nat.mul_le_mul_left w htempy

/-- Helper: the loop invariant of the distortion decode.  From any
reachable state — tile column `16·j`, row `4·k + sec` with `sec ∈ {0,1}`,
`32·(2·n·k + n·sec + j)` bytes consumed — running the loop with the
exact remaining fuel hits the `break` with all `w·h` stream bytes
consumed, produces the same final state for any two streams that agree
on the first `w·h` positions, and only ever writes strictly in-bounds
`iBuffer` indices. -/
theorem distort_run (w h n b : Nat) (hw : w = 16 * n) (hn : 0 < n)
    (hh : h = 4 * b) (_hb : 0 < b)
    (ρ₁ ρ₂ : Nat → Nat) (hρ : ∀ p, p < w * h → ρ₁ p = ρ₂ p) :
    ∀ r k sec j : Nat, ∀ s : DistortState,
      r + (2 * n * k + n * sec + j) = 2 * n * b →
      k < b → sec ≤ 1 → j < n →
      s.x = 16 * j → s.y = 4 * k + sec →
      s.pos = 32 * (2 * n * k + n * sec + j) →
      (∀ e ∈ s.writes, e.1 < w * h) →
      ∃ t : DistortState,
        distortLoop w h ρ₁ r s = some t ∧
        distortLoop w h ρ₂ r s = some t ∧
        t.pos = w * h ∧ (∀ e ∈ t.writes, e.1 < w * h) := by
  have hw0 : 0 < w := by omega
  have hwh32 : w * h = 32 * (2 * n * b) := by subst hw hh; ring
  intro r
  induction r with
  | zero =>
    intro k sec j s hr hk hsec hj _ _ _ _
    exfalso
    -- 2·n·k + n·sec + j < 2·n·b, contradicting hr at fuel 0
    have h1 : 2 * n * k + n * sec + j < 2 * n * (k + 1) := by
      have h2 : n * sec ≤ n * 1 := Nat.mul_le_mul_left n hsec
      have h3 : 2 * n * (k + 1) = 2 * n * k + 2 * n := by ring
      omega
    have h4 : 2 * n * (k + 1) ≤ 2 * n * b := Nat.mul_le_mul_left (2 * n) hk
    omega
  | succ r ih =>
    intro k sec j s hr hk hsec hj hx hy hp hws
    -- the 32-byte group of this iteration reads within [0, w·h)
    have hpos32 : s.pos + 32 ≤ w * h := by
      have hD1 : (2 * n * k + n * sec + j) + 1 ≤ 2 * n * b := by omega
      have h32 : 32 * ((2 * n * k + n * sec + j) + 1) ≤ 32 * (2 * n * b) :=
        Nat.mul_le_mul_left 32 hD1
      omega
    have hgw_eq : groupWrites w s.x s.y s.offsetFlipper ρ₂ s.pos =
        groupWrites w s.x s.y s.offsetFlipper ρ₁ s.pos := by
      unfold groupWrites
      refine List.map_congr_left fun i hi => ?_
      have hi32 : i < 32 := List.mem_range.mp hi
      rw [hρ (s.pos + i) (by omega)]
    have hgw_lt : ∀ e ∈ s.writes ++ groupWrites w s.x s.y s.offsetFlipper ρ₁ s.pos,
        e.1 < w * h := by
      intro e he
      rcases List.mem_append.mp he with he | he
      · exact hws e he
      · unfold groupWrites at he
        obtain ⟨i, _, rfl⟩ := List.mem_map.mp he
        exact writeIdx_lt w h s.x s.y s.offsetFlipper i hw0 (by omega)
    by_cases hjn : j + 1 < n
    · -- continue along the current row pass: x advances by 16
      have hc1 : s.x + 16 < w := by omega
      have hstep : ∀ ρ, distortStep w h ρ s =
          Sum.inl ⟨s.x + 16, s.y, s.offsetFlipper, s.pos + 32,
            s.writes ++ groupWrites w s.x s.y s.offsetFlipper ρ s.pos⟩ := by
        intro ρ
        simp only [distortStep]
        rw [if_pos hc1]
      obtain ⟨t, ht1, ht2, htp, htw⟩ := ih k sec (j + 1)
        ⟨s.x + 16, s.y, s.offsetFlipper, s.pos + 32,
          s.writes ++ groupWrites w s.x s.y s.offsetFlipper ρ₁ s.pos⟩
        (by omega) hk hsec hjn (by simp; omega) (by simpa using hy) (by simp; omega) hgw_lt
      refine ⟨t, ?_, ?_, htp, htw⟩
      · simp only [distortLoop, hstep ρ₁]
        exact ht1
      · simp only [distortLoop, hstep ρ₂, hgw_eq]
        exact ht2
    · -- x + 16 = w: wrap to column 0 and advance the row logic
      have hc1 : ¬s.x + 16 < w := by omega
      rcases Nat.lt_or_ge sec 1 with hsec0 | hsec1
      · -- sec = 0: row 4·k done, go to row 4·k + 1
        have hs0 : sec = 0 := by omega
        subst hs0
        have hc2 : ¬(s.y + 1) % 2 = 0 := by omega
        have hc5 : ¬s.y + 1 = h := by omega
        have hstep : ∀ ρ, distortStep w h ρ s =
            Sum.inl ⟨0, s.y + 1, s.offsetFlipper, s.pos + 32,
              s.writes ++ groupWrites w s.x s.y s.offsetFlipper ρ s.pos⟩ := by
          intro ρ
          simp only [distortStep]
          rw [if_neg hc1, if_neg hc2, if_neg hc5]
        obtain ⟨t, ht1, ht2, htp, htw⟩ := ih k 1 0
          ⟨0, s.y + 1, s.offsetFlipper, s.pos + 32,
            s.writes ++ groupWrites w s.x s.y s.offsetFlipper ρ₁ s.pos⟩
          (by omega) hk (by omega) (by omega) (by simp) (by simp; omega) (by simp; omega) hgw_lt
        refine ⟨t, ?_, ?_, htp, htw⟩
        · simp only [distortLoop, hstep ρ₁]
          exact ht1
        · simp only [distortLoop, hstep ρ₂, hgw_eq]
          exact ht2
      · -- sec = 1: rows 4·k and 4·k+1 done, skip to row 4·(k+1) or stop
        have hs1 : sec = 1 := by omega
        subst hs1
        have hc2 : (s.y + 1) % 2 = 0 := by omega
        have hmul : 2 * n * (k + 1) = 2 * n * k + n * 1 + (n - 1) + 1 := by
          have h3 : 2 * n * (k + 1) = 2 * n * k + 2 * n := by ring
          omega
        by_cases hkb : k + 1 < b
        · -- more rows remain: y += 3, flip the offset
          have hc3 : ¬s.y + 3 ≥ h := by omega
          have hc4 : ¬s.y + 3 = h := by omega
          have hstep : ∀ ρ, distortStep w h ρ s =
              Sum.inl ⟨0, s.y + 3, !s.offsetFlipper, s.pos + 32,
                s.writes ++ groupWrites w s.x s.y s.offsetFlipper ρ s.pos⟩ := by
            intro ρ
            simp only [distortStep]
            rw [if_neg hc1, if_pos hc2, if_neg hc3, if_neg hc4]
          obtain ⟨t, ht1, ht2, htp, htw⟩ := ih (k + 1) 0 0
            ⟨0, s.y + 3, !s.offsetFlipper, s.pos + 32,
              s.writes ++ groupWrites w s.x s.y s.offsetFlipper ρ₁ s.pos⟩
            (by omega) hkb (by omega) (by omega) (by simp) (by simp; omega)
            (by simp; omega) hgw_lt
          refine ⟨t, ?_, ?_, htp, htw⟩
          · simp only [distortLoop, hstep ρ₁]
            exact ht1
          · simp only [distortLoop, hstep ρ₂, hgw_eq]
            exact ht2
        · -- k + 1 = b: the row cursor reaches the clamped height; break
          have hkb1 : k + 1 = b := by omega
          have hc3 : s.y + 3 ≥ h := by omega
          have hstep : ∀ ρ, distortStep w h ρ s =
              Sum.inr ⟨0, s.y + 3, s.offsetFlipper, s.pos + 32,
                s.writes ++ groupWrites w s.x s.y s.offsetFlipper ρ s.pos⟩ := by
            intro ρ
            simp only [distortStep]
            rw [if_neg hc1, if_pos hc2, if_pos hc3]
          refine ⟨⟨0, s.y + 3, s.offsetFlipper, s.pos + 32,
            s.writes ++ groupWrites w s.x s.y s.offsetFlipper ρ₁ s.pos⟩, ?_, ?_, ?_, hgw_lt⟩
          · simp only [distortLoop, hstep ρ₁]
          · simp only [distortLoop, hstep ρ₂, hgw_eq]
          · simp only []
            -- pos + 32 accounts for all 2·n·b groups
            have hD : 2 * n * k + n * 1 + j + 1 = 2 * n * b := by
              have hmul2 : 2 * n * b = 2 * n * k + n * 1 + (n - 1) + 1 := by
                rw [← hkb1]
                exact hmul
              omega
            have : 32 * (2 * n * k + n * 1 + j) + 32 = 32 * (2 * n * b) := by omega
            omega

/-- C8: for a paletted texture whose (clamped) width is a multiple of
16 exceeding 96 and whose height is a nonzero multiple of 4, the
distortion decode loop terminates after exactly `w·h/32` iterations of
the 32-byte group pass, consuming exactly `w·h` index bytes (so the
end-of-stream assertion holds with nothing left over), and it is
deterministic: any two streams that agree on those `w·h` bytes drive
the loop to the identical final state, writes included. -/
theorem C8_distortion_decode (w h : Nat) (hw16 : w % 16 = 0) (hw96 : 96 < w)
    (hh4 : h % 4 = 0) (hh0 : 0 < h)
    (ρ₁ ρ₂ : Nat → Nat) (hρ : ∀ p, p < w * h → ρ₁ p = ρ₂ p) :
    ∃ t : DistortState,
      distortLoop w h ρ₁ (w * h / 32) distortInit = some t ∧
      distortLoop w h ρ₂ (w * h / 32) distortInit = some t ∧
      t.pos = w * h := by
  obtain ⟨n, hn⟩ : ∃ n, w = 16 * n := ⟨w / 16, by omega⟩
  obtain ⟨b, hb⟩ : ∃ b, h = 4 * b := ⟨h / 4, by omega⟩
  have hn0 : 0 < n := by omega
  have hb0 : 0 < b := by omega
  have hwh : w * h = 32 * (2 * n * b) := by subst hn hb; ring
  have hfuel : w * h / 32 = 2 * n * b := by
    rw [hwh]
    exact Nat.mul_div_cancel_left _ (by omega)
  rw [hfuel]
  obtain ⟨t, ht1, ht2, htp, _⟩ := distort_run w h n b hn hn0 hb hb0 ρ₁ ρ₂ hρ
    (2 * n * b) 0 0 0 distortInit (by simp) hb0 (by omega) hn0
    (by simp [distortInit]) (by simp [distortInit]) (by simp [distortInit])
    (by simp [distortInit])
  exact ⟨t, ht1, ht2, htp⟩

/-- C8 (witness): the 128×64 decode terminates with exactly
`128·64 = 8192` bytes consumed, identically for any streams agreeing on
them (here: the zero stream against itself). -/
theorem C8_witness :
    128 % 16 = 0 ∧ 96 < 128 ∧ 64 % 4 = 0 ∧ 0 < 64 ∧
    ∃ t : DistortState,
      distortLoop 128 64 (fun _ => 0) (128 * 64 / 32) distortInit = some t ∧
      distortLoop 128 64 (fun _ => 0) (128 * 64 / 32) distortInit = some t ∧
      t.pos = 128 * 64 :=
  ⟨rfl, by decide, rfl, by decide,
    C8_distortion_decode 128 64 rfl (by decide) rfl (by decide)
      (fun _ => 0) (fun _ => 0) (fun _ _ => rfl)⟩

/-- C9 (witness): a sub-arc whose header magic read 0 rejects a
concrete by-index load without touching the buffer. -/
theorem C9_witness :
    (true = false ∨ (0 : Nat) ≠ 0x20030507) ∧
    subarc_LoadFile_index (subarc_Reopen true 0)
        ((fun _ => (⟨0, 0, 5, 5⟩ : subarc_file_entry)) 2) (fun _ => 3) [1, 2] 1 =
      (arcFileNotFound, [1, 2], (1 : Int)) :=
  ⟨Or.inr (by decide),
    (C9_unusable_is_safe true 0 (Or.inr (by decide)) (fun _ => some 0)
      (fun _ => ⟨0, 0, 5, 5⟩) (fun _ => 3) "f" 2 [1, 2] 1).2.1⟩

end SH3
